import Mathlib

/-!
Shallow embedding of the nfc-autolocker access-control program
(`card_reader_app.py`, `add_user.py`) and proofs about its behaviour.

Conventions of the embedding:
* Machine times (`time.time()`, file modification times) are modelled as `Int`
  instants; the several clock queries inside a single tick of `check_loop` are
  modelled as one instant `now`.
* Python exceptions at the collaborator boundaries are modelled as explicit
  outcome constructors (`ReaderAttempt`, `FileContent`), and caught exceptions
  become `Option`/fallback returns, exactly where the source catches them.
* Python string truthiness (`if card_number:`) is modelled by `truthy`:
  a string is truthy iff it is non-empty; `None` is falsy.
-/

namespace NFCAutolocker

/-! ## Reader boundary (`read_card`, `get_card_uid`) -/

/-- One uppercase hex digit, as produced by Python `format(_, '02X')`. -/
def hexDigit (n : Nat) : Char :=
  if n < 10 then Char.ofNat (48 + n) else Char.ofNat (55 + n)

/-- `format(byte, '02X')` for a response byte (bytes are `0..255`, so the
result is always exactly two uppercase hex digits). -/
def hexByte (b : Nat) : String :=
  String.mk [hexDigit (b / 16 % 16), hexDigit (b % 16)]

/-- `''.join(format(byte, '02X') for byte in response)`. -/
def bytesToHex (resp : List Nat) : String :=
  String.join (resp.map hexByte)

/-- What happened during one `createConnection/connect/transmit/disconnect`
sequence of `AccessControlApp.read_card`. `connectRaised` models an exception
from `createConnection()`/`connect()`; in `connected`, `transmitResult = none`
models `connection.transmit` raising, and `some (resp, sw1, sw2)` is a
completed exchange; `disconnectRaises` models `connection.disconnect()`
raising afterwards. -/
inductive ReaderAttempt where
  | connectRaised : ReaderAttempt
  | connected (transmitResult : Option (List Nat × Nat × Nat))
      (disconnectRaises : Bool) : ReaderAttempt
  deriving DecidableEq, Repr

/-- `get_card_uid(connection)`: the inner `try` catches a raising `transmit`
(`transmitResult = none`) and returns `None`; a status pair other than
`0x90 0x00` also returns `None`; on success the response bytes become an
uppercase hex string. -/
def get_card_uid (transmitResult : Option (List Nat × Nat × Nat)) : Option String :=
  match transmitResult with
  | none => none
  | some (resp, sw1, sw2) =>
    if sw1 = 0x90 ∧ sw2 = 0x00 then some (bytesToHex resp) else none

/-- `AccessControlApp.read_card`: the whole connect/read/disconnect sequence
sits in one `try`, so an exception anywhere (including from `disconnect`,
which runs after the uid was obtained) yields `None`. -/
def read_card (a : ReaderAttempt) : Option String :=
  match a with
  | .connectRaised => none
  | .connected transmitResult disconnectRaises =>
    if disconnectRaises then none else get_card_uid transmitResult

/-- The attempts that count as an I/O failure of the poll sequence: a raising
connect, a raising transmit, a raising disconnect, or a response status other
than the success sentinel `0x90 0x00`. -/
def readFailure : ReaderAttempt → Prop
  | .connectRaised => True
  | .connected none _ => True
  | .connected (some (_, sw1, sw2)) disconnectRaises =>
    disconnectRaises = true ∨ ¬(sw1 = 0x90 ∧ sw2 = 0x00)

instance : DecidablePred readFailure := fun a =>
  match a with
  | .connectRaised => inferInstanceAs (Decidable True)
  | .connected none _ => inferInstanceAs (Decidable True)
  | .connected (some (_, sw1, sw2)) d =>
    inferInstanceAs (Decidable (d = true ∨ ¬(sw1 = 0x90 ∧ sw2 = 0x00)))

/-! ## Registry store (`load_authorized_users` in `card_reader_app.py`) -/

/-- The module-level cache: `_cached_users` (card number, already uppercased,
paired with the user name) and `_last_mtime`. -/
structure RegistryCache where
  cached_users : List (String × String)
  last_mtime : Int
  deriving DecidableEq, Repr

/-- The content of `authorized_users.json` as seen by one load: empty after
`strip()`, JSON that fails to parse (`json.JSONDecodeError`), valid JSON
without a `'users'` key, a `'users'` list whose dict comprehension raises
(e.g. an entry missing `'card_number'`, caught by the outer
`except Exception`), or a well-formed `'users'` list of
`(card_number, name)` entries. -/
inductive FileContent where
  | empty : FileContent
  | malformed : FileContent
  | noUsersKey : FileContent
  | badEntries : FileContent
  | users (entries : List (String × String)) : FileContent
  deriving DecidableEq, Repr

/-- The backing file: missing, or present with a modification time and
content. -/
inductive FileState where
  | missing : FileState
  | present (mtime : Int) (content : FileContent) : FileState
  deriving DecidableEq, Repr

/-- ASCII uppercasing of one character, as Python `str.upper()` acts on the
hex-digit identifiers this program handles. -/
def upperChar (ch : Char) : Char :=
  if 'a' ≤ ch ∧ ch ≤ 'z' then Char.ofNat (ch.toNat - 32) else ch

/-- Python `s.upper()` (the identifiers involved are ASCII hex strings, on
which Unicode and ASCII uppercasing agree). -/
def pyUpper (s : String) : String :=
  String.mk (s.data.map upperChar)

/-- One key assignment in a Python dict: overwrite the existing binding in
place, else append. -/
def dictInsert (k v : String) : List (String × String) → List (String × String)
  | [] => [(k, v)]
  | (k', v') :: rest =>
    if k' = k then (k, v) :: rest else (k', v') :: dictInsert k v rest

/-- The dict comprehension
`{user['card_number'].upper(): user['name'] for user in data['users']}`:
keys are uppercased and a later duplicate key overwrites an earlier one. -/
def buildUserDict (entries : List (String × String)) : List (String × String) :=
  entries.foldl (fun d e => dictInsert (pyUpper e.1) e.2 d) []

/-- Point lookup in the (duplicate-free) dict model. -/
def dictLookup (users : List (String × String)) (card : String) : Option String :=
  (users.find? (fun e => e.1 = card)).map (fun e => e.2)

/-- Result of one call to `load_authorized_users`: the returned mapping, the
cache state afterwards, and whether the file body was read/parsed on this
call (`didRead = false` for the missing-file early return and for the
mtime cache hit). -/
structure LoadResult where
  result : List (String × String)
  cache : RegistryCache
  didRead : Bool
  deriving DecidableEq, Repr

/-- `load_authorized_users()`. Missing file: `{}` without touching the cache.
Unchanged mtime: the cached dict, no read. Otherwise the file is read:
empty content or a missing `'users'` key install `{}` in the cache; a parse
error (`json.JSONDecodeError`) or a raising comprehension returns the last
known good `_cached_users` and leaves both cache globals unmodified;
well-formed content installs the freshly built dict and the new mtime. -/
def load_authorized_users (file : FileState) (c : RegistryCache) : LoadResult :=
  match file with
  | .missing => ⟨[], c, false⟩
  | .present mtime content =>
    if mtime = c.last_mtime then ⟨c.cached_users, c, false⟩
    else
      match content with
      | .empty => ⟨[], ⟨[], mtime⟩, true⟩
      | .noUsersKey => ⟨[], ⟨[], mtime⟩, true⟩
      | .users es => ⟨buildUserDict es, ⟨buildUserDict es, mtime⟩, true⟩
      | .malformed => ⟨c.cached_users, c, true⟩
      | .badEntries => ⟨c.cached_users, c, true⟩

/-! ## Enrollment write (`save_user_to_file` in `add_user.py`) -/

/-- One entry of the `'users'` list in `authorized_users.json`. -/
structure UserEntry where
  name : String
  card_number : String
  deriving DecidableEq, Repr

/-- `save_user_to_file(name, card_number)` on the parsed `'users'` list:
drop every entry whose `card_number` equals the new one (exact string
comparison, `u.get("card_number") != card_number`), then append the new
entry. -/
def save_user_to_file (name card_number : String) (users : List UserEntry) :
    List UserEntry :=
  (users.filter (fun u => u.card_number ≠ card_number)) ++ [⟨name, card_number⟩]

/-! ## The access state machine (`AccessControlApp.check_loop`) -/

/-- Python string-option truthiness: `None` and `""` are falsy. -/
def truthy : Option String → Bool
  | none => false
  | some s => s ≠ ""

/-- The per-tick mutable session state of `AccessControlApp`:
`last_card`, `last_user_name`, `no_card_start_time`, `last_display_text`. -/
structure AppState where
  last_card : Option String
  last_user_name : Option String
  no_card_start_time : Option Int
  last_display_text : String
  deriving DecidableEq, Repr

/-- `self.TIMEOUT_SECONDS = 10`. -/
def TIMEOUT_SECONDS : Int := 10

/-- The fields as set in `AccessControlApp.__init__`: `last_card = None`,
`last_user_name = None`, `no_card_start_time = time.time()` (the startup
instant), `last_display_text = ""`. -/
def initState (now : Int) : AppState :=
  { last_card := none
    last_user_name := none
    no_card_start_time := some now
    last_display_text := "" }

/-- The status resolved in step 3 of `check_loop`. -/
inductive Status where
  | NO_CARD : Status
  | UNAUTHORIZED : Status
  | AUTHORIZED : Status
  deriving DecidableEq, Repr

/-- Audit events appended by `log_access` during a tick (`process_card` logs
`Access Granted`; the edge-detection block logs `Session Ended`). A denial is
printed but not logged. -/
inductive Event where
  | sessionEnded (card name : String) : Event
  | granted (card name : String) : Event
  deriving DecidableEq, Repr

/-- The two display strings of step 5. -/
def place_card_text : String := "Please place card on reader\nカードをかざしてください"

def unregistered_text : String := "Card Not Registered\nカードは未登録です"

/-- Step 3 of `check_loop`: `status = NO_CARD; user_name = None`, and when
`card_number` is truthy look it up in the freshly loaded registry. -/
def resolve_status (card_number : Option String)
    (authorized_users : List (String × String)) : Status × Option String :=
  match card_number with
  | none => (Status.NO_CARD, none)
  | some c =>
    if c = "" then (Status.NO_CARD, none)
    else
      match dictLookup authorized_users c with
      | some n => (Status.AUTHORIZED, some n)
      | none => (Status.UNAUTHORIZED, none)

/-- Step 4 of `check_loop` (edge detection), audit events only: nothing when
`card_number == self.last_card`; otherwise `Session Ended` for a truthy
previous card with truthy user name, then whatever `process_card` logs for
the new card (`Access Granted` when it is in `authorized_users`). -/
def edge_events (s : AppState) (card_number : Option String)
    (authorized_users : List (String × String)) : List Event :=
  if card_number = s.last_card then []
  else
    (if truthy s.last_card ∧ truthy s.last_user_name then
      [Event.sessionEnded (s.last_card.getD "") (s.last_user_name.getD "")]
    else []) ++
    (match card_number with
     | none => []
     | some c =>
       if c = "" then []
       else
         match dictLookup authorized_users c with
         | some n => [Event.granted c n]
         | none => [])

/-- Step 4 of `check_loop` (edge detection), state update: `last_card` and
`last_user_name` are reassigned only inside the `card_number != last_card`
branch. -/
def edge_state (s : AppState) (card_number user_name : Option String) : AppState :=
  if card_number = s.last_card then s
  else { s with last_card := card_number, last_user_name := user_name }

/-- Everything a tick produces besides the new state: the resolved status,
the emitted audit events, how many times `LockWorkStation` was called and
whether that call raised, whether the window is shown (`deiconify`) or
hidden (`withdraw`), and the remaining seconds written to the timer text
(`none` when hidden). -/
structure TickOutcome where
  state : AppState
  events : List Event
  status : Status
  lock_calls : Nat
  lock_error : Bool
  visible : Bool
  timer_shown : Option Int
  deriving DecidableEq, Repr

/-- Step 5 of `check_loop` (UI and timeout logic). `AUTHORIZED` or a locked
workstation: `no_card_start_time = None`, `withdraw()`. Otherwise the window
is shown, the display text updated when changed, the start time installed
when `None`, and on `remaining <= 0` the lock is invoked once (a raising
`LockWorkStation` is caught) and the start time reset to `now`. -/
def ui_timeout (s1 : AppState) (events : List Event) (status : Status)
    (is_locked : Bool) (now : Int) (lock_fails : Bool) : TickOutcome :=
  if status = Status.AUTHORIZED then
    { state := { s1 with no_card_start_time := none }
      events := events, status := status, lock_calls := 0, lock_error := false
      visible := false, timer_shown := none }
  else if is_locked then
    { state := { s1 with no_card_start_time := none }
      events := events, status := status, lock_calls := 0, lock_error := false
      visible := false, timer_shown := none }
  else
    let display_text :=
      if status = Status.UNAUTHORIZED then unregistered_text else place_card_text
    let s2 :=
      if display_text ≠ s1.last_display_text then
        { s1 with last_display_text := display_text }
      else s1
    let start := s2.no_card_start_time.getD now
    let remaining := TIMEOUT_SECONDS - (now - start)
    if remaining ≤ 0 then
      { state := { s2 with no_card_start_time := some now }
        events := events, status := status, lock_calls := 1
        lock_error := lock_fails, visible := true
        timer_shown := some TIMEOUT_SECONDS }
    else
      { state := { s2 with no_card_start_time := some start }
        events := events, status := status, lock_calls := 0, lock_error := false
        visible := true, timer_shown := some remaining }

/-- One tick of `AccessControlApp.check_loop`, for a given poll result
`card_number` (what `read_card` returned), the registry `authorized_users`
that `load_authorized_users` yields on this tick, the clock `now`, the
suspend signal `is_locked` (what `is_workstation_locked()` returned), and
whether a `LockWorkStation` call would raise. -/
def check_loop_tick (s : AppState) (card_number : Option String)
    (authorized_users : List (String × String)) (now : Int)
    (is_locked lock_fails : Bool) : TickOutcome :=
  let status := (resolve_status card_number authorized_users).1
  let user_name := (resolve_status card_number authorized_users).2
  let events := edge_events s card_number authorized_users
  let s1 := edge_state s card_number user_name
  ui_timeout s1 events status is_locked now lock_fails

/-- The `remaining` value the tick computes at lines 326-331 when it reaches
the timeout branch: the start time is the stored `no_card_start_time`, or
`now` when that is `None` (it is installed just before the subtraction). -/
def tickRemaining (s : AppState) (now : Int) : Int :=
  TIMEOUT_SECONDS - (now - s.no_card_start_time.getD now)

/-! ## Supporting lemmas -/

theorem edge_state_start_time (s : AppState) (c u : Option String) :
    (edge_state s c u).no_card_start_time = s.no_card_start_time := by
  unfold edge_state
  split <;> rfl

theorem edge_state_display (s : AppState) (c u : Option String) :
    (edge_state s c u).last_display_text = s.last_display_text := by
  unfold edge_state
  split <;> rfl

theorem ui_timeout_status (s1 : AppState) (ev : List Event) (st : Status)
    (lk : Bool) (now : Int) (lf : Bool) :
    (ui_timeout s1 ev st lk now lf).status = st := by
  unfold ui_timeout
  split
  · rfl
  split
  · rfl
  simp only [apply_ite TickOutcome.status, ite_self]

theorem ui_timeout_events (s1 : AppState) (ev : List Event) (st : Status)
    (lk : Bool) (now : Int) (lf : Bool) :
    (ui_timeout s1 ev st lk now lf).events = ev := by
  unfold ui_timeout
  split
  · rfl
  split
  · rfl
  simp only [apply_ite TickOutcome.events, ite_self]

theorem ui_timeout_frame (s1 : AppState) (ev : List Event) (st : Status)
    (lk : Bool) (now : Int) (lf : Bool) :
    (ui_timeout s1 ev st lk now lf).state.last_card = s1.last_card ∧
    (ui_timeout s1 ev st lk now lf).state.last_user_name = s1.last_user_name := by
  unfold ui_timeout
  split
  · exact ⟨rfl, rfl⟩
  split
  · exact ⟨rfl, rfl⟩
  constructor <;>
    simp only [apply_ite TickOutcome.state, apply_ite AppState.last_card,
      apply_ite AppState.last_user_name, ite_self]

theorem check_loop_tick_status (s : AppState) (card_number : Option String)
    (authorized_users : List (String × String)) (now : Int) (lk lf : Bool) :
    (check_loop_tick s card_number authorized_users now lk lf).status =
      (resolve_status card_number authorized_users).1 := by
  unfold check_loop_tick
  exact ui_timeout_status _ _ _ _ _ _

theorem check_loop_tick_events (s : AppState) (card_number : Option String)
    (authorized_users : List (String × String)) (now : Int) (lk lf : Bool) :
    (check_loop_tick s card_number authorized_users now lk lf).events =
      edge_events s card_number authorized_users := by
  unfold check_loop_tick
  exact ui_timeout_events _ _ _ _ _ _

/-- In the non-authorized, non-suspended branch the conditional display-text
update and the conditional start-time installation collapse to one canonical
outcome per side of the expiry test. -/
theorem ui_timeout_run (s1 : AppState) (ev : List Event) (st : Status)
    (now : Int) (lf : Bool) (hst : st ≠ Status.AUTHORIZED) :
    ui_timeout s1 ev st false now lf =
      (if TIMEOUT_SECONDS - (now - s1.no_card_start_time.getD now) ≤ 0 then
        { state := { s1 with
            last_display_text :=
              if st = Status.UNAUTHORIZED then unregistered_text else place_card_text
            no_card_start_time := some now }
          events := ev, status := st, lock_calls := 1, lock_error := lf
          visible := true, timer_shown := some TIMEOUT_SECONDS }
      else
        { state := { s1 with
            last_display_text :=
              if st = Status.UNAUTHORIZED then unregistered_text else place_card_text
            no_card_start_time := some (s1.no_card_start_time.getD now) }
          events := ev, status := st, lock_calls := 0, lock_error := false
          visible := true
          timer_shown := some (TIMEOUT_SECONDS - (now - s1.no_card_start_time.getD now)) }) := by
  unfold ui_timeout
  rw [if_neg hst]
  simp only [Bool.false_eq_true, if_false]
  by_cases hd :
      (if st = Status.UNAUTHORIZED then unregistered_text else place_card_text) ≠
        s1.last_display_text
  · rw [if_pos hd]
  · rw [if_neg hd]
    push_neg at hd
    rw [hd]

/-- A load whose mtime matches the cached token is a pure cache hit. -/
theorem load_hit (mtime : Int) (content : FileContent) (c : RegistryCache)
    (h : mtime = c.last_mtime) :
    load_authorized_users (.present mtime content) c =
      ⟨c.cached_users, c, false⟩ := by
  simp [load_authorized_users, h]

/-- For a present file, the mapping a load returns is exactly what its
resulting cache holds (on the failure paths the cache is the untouched old
one, whose `cached_users` is what was returned). -/
theorem load_result_eq_cache (mtime : Int) (content : FileContent)
    (c : RegistryCache) :
    (load_authorized_users (.present mtime content) c).result =
      (load_authorized_users (.present mtime content) c).cache.cached_users := by
  by_cases h : mtime = c.last_mtime
  · simp [load_authorized_users, h]
  · cases content <;> simp [load_authorized_users, h]

/-! ## Claim theorems -/

/-- C4: every I/O failure during the reader poll sequence — a raising
connect, transmit or disconnect, or a response status other than the success
sentinel `0x90 0x00` — makes `read_card` return `None`, exactly like the
no-card case; being a total function into `Option`, it propagates no error. -/
theorem read_card_fails_closed (a : ReaderAttempt) (h : readFailure a) :
    read_card a = none := by
  match a with
  | .connectRaised => rfl
  | .connected none d => cases d <;> rfl
  | .connected (some (resp, sw1, sw2)) d =>
    rcases h with hd | hsw
    · subst hd
      rfl
    · cases d
      · simp [read_card, get_card_uid, hsw]
      · rfl

/-- Witness for C4 at a concrete failing attempt: a completed exchange with
status `0x63 0x00` and a clean disconnect still polls as `None`. -/
theorem read_card_fails_closed_witness :
    read_card (.connected (some ([0xAB], 0x63, 0x00)) false) = none :=
  read_card_fails_closed (.connected (some ([0xAB], 0x63, 0x00)) false)
    (Or.inr (by decide))

/-- C6: a registry load whose file content fails to parse (the mtime differs
from the cached one, so the body is actually read) returns the previously
cached entries, leaves the whole cache — mapping and version token —
unmodified, and a subsequent load of the same file reads again. -/
theorem load_malformed_keeps_cache (c : RegistryCache) (mtime : Int)
    (h : mtime ≠ c.last_mtime) :
    (load_authorized_users (.present mtime .malformed) c).result =
        c.cached_users ∧
    (load_authorized_users (.present mtime .malformed) c).cache = c ∧
    (load_authorized_users (.present mtime .malformed) c).didRead = true ∧
    (load_authorized_users (.present mtime .malformed)
        (load_authorized_users (.present mtime .malformed) c).cache).didRead =
      true := by
  simp [load_authorized_users, h]

/-- Witness for C6 at a concrete cache and a changed mtime. -/
theorem load_malformed_keeps_cache_witness :
    (load_authorized_users (.present 5 .malformed)
        (⟨[("AA", "Alice")], 0⟩ : RegistryCache)).cache =
      (⟨[("AA", "Alice")], 0⟩ : RegistryCache) :=
  (load_malformed_keeps_cache ⟨[("AA", "Alice")], 0⟩ 5 (by decide)).2.1

/-- C7 counterexample: after a first lookup that hit malformed content, a
second lookup of the *same* file (version token unchanged) does re-read and
re-parse (`didRead = true`), because the parse failure left the cached token
stale; so the claim that it performs no re-read is false. The returned
mapping is still the cached one. -/
theorem load_reread_after_parse_error :
    (load_authorized_users (.present 5 .malformed)
        (load_authorized_users (.present 5 .malformed)
          (⟨[("AA", "Alice")], 0⟩ : RegistryCache)).cache).didRead = true ∧
    (load_authorized_users (.present 5 .malformed)
        (load_authorized_users (.present 5 .malformed)
          (⟨[("AA", "Alice")], 0⟩ : RegistryCache)).cache).result =
      [("AA", "Alice")] := by
  constructor <;> rfl

/-- C7 amended: if the first lookup left the cached version token equal to
the file's token (a cache hit or a successful reload — i.e. anything but a
parse failure on changed content), then a second lookup with the token
unchanged performs no re-read or re-parse and returns the identical cached
mapping, with the cache unchanged. -/
theorem load_unchanged_token_no_reread (mtime : Int) (content : FileContent)
    (c : RegistryCache)
    (h : (load_authorized_users (.present mtime content) c).cache.last_mtime =
      mtime) :
    (load_authorized_users (.present mtime content)
        (load_authorized_users (.present mtime content) c).cache).didRead =
      false ∧
    (load_authorized_users (.present mtime content)
        (load_authorized_users (.present mtime content) c).cache).result =
      (load_authorized_users (.present mtime content) c).result ∧
    (load_authorized_users (.present mtime content)
        (load_authorized_users (.present mtime content) c).cache).cache =
      (load_authorized_users (.present mtime content) c).cache := by
  rw [load_hit mtime content _ h.symm]
  exact ⟨rfl, (load_result_eq_cache mtime content c).symm, rfl⟩

/-- Witness for C7's amended theorem: a successful reload followed by a
lookup at the same mtime. -/
theorem load_unchanged_token_no_reread_witness :
    (load_authorized_users (.present 5 (.users [("ab", "Alice")]))
        (load_authorized_users (.present 5 (.users [("ab", "Alice")]))
          (⟨[], 0⟩ : RegistryCache)).cache).didRead = false :=
  (load_unchanged_token_no_reread 5 (.users [("ab", "Alice")]) ⟨[], 0⟩
    (by decide)).1

/-- C8 counterexample: at process start (`AccessControlApp.__init__`) the
fields are *not* all empty/none — `no_card_start_time` is set to the startup
instant `time.time()`, not `None`. -/
theorem initState_not_all_none :
    ¬((initState 0).last_card = none ∧ (initState 0).last_user_name = none ∧
      (initState 0).no_card_start_time = none ∧
      (initState 0).last_display_text = "") := by
  decide

/-- C8 amended: at process start, before the first tick, `present_card` and
`present_user` are none and the displayed text is empty, but the no-card
start time is initialized to the startup instant (a fresh timeout window
begins immediately), not to none. -/
theorem initState_fields (now : Int) :
    (initState now).last_card = none ∧
    (initState now).last_user_name = none ∧
    (initState now).no_card_start_time = some now ∧
    (initState now).last_display_text = "" :=
  ⟨rfl, rfl, rfl, rfl⟩

/-- C9 counterexample: enrollment removes old entries by *exact* string
comparison of `card_number`, not case-insensitively: writing `("New", "AB")`
over an existing `("Old", "ab")` keeps both, and afterwards two entries match
`"AB"` under uppercase normalization. -/
theorem save_user_case_sensitive :
    save_user_to_file "New" "AB" [⟨"Old", "ab"⟩] =
      [⟨"Old", "ab"⟩, ⟨"New", "AB"⟩] ∧
    pyUpper "ab" = "AB" ∧
    ((save_user_to_file "New" "AB" [⟨"Old", "ab"⟩]).filter
        (fun u => pyUpper u.card_number = "AB")).length = 2 := by
  refine ⟨by decide, by decide, by decide⟩

/-- C9 amended: the write removes all existing entries whose `card_number`
*exactly* equals the new card's identifier and appends the new
`{name, card_number}` entry last, so after the write exactly one entry
carries that exact identifier (last-write wins for exact duplicates;
case-variant duplicates are not removed). -/
theorem save_user_exact_replacement (name card : String)
    (users : List UserEntry) :
    (save_user_to_file name card users).filter
        (fun u => u.card_number = card) = [⟨name, card⟩] ∧
    (save_user_to_file name card users).getLast? = some ⟨name, card⟩ := by
  constructor
  · have h1 : ∀ l : List UserEntry,
        (l.filter (fun u => u.card_number ≠ card)).filter
          (fun u => u.card_number = card) = [] := by
      intro l
      induction l with
      | nil => rfl
      | cons u rest ih =>
        by_cases h : u.card_number = card <;>
          simp [List.filter_cons, h, ih]
    simp [save_user_to_file, List.filter_append, h1]
  · simp [save_user_to_file]

/-- C1: on a tick whose resolved status is `NO_CARD` or `UNAUTHORIZED`, with
the session not suspended and the computed remaining time `<= 0`, the lock
action is invoked exactly once and the no-card start time is reset to `now`
(equivalently, the timeout deadline becomes `now + TIMEOUT_SECONDS`), so the
countdown window restarts on that same tick. -/
theorem tick_expiry_fires_lock_once (s : AppState) (card_number : Option String)
    (authorized_users : List (String × String)) (now : Int) (lf : Bool)
    (hstatus :
      (check_loop_tick s card_number authorized_users now false lf).status =
          Status.NO_CARD ∨
        (check_loop_tick s card_number authorized_users now false lf).status =
          Status.UNAUTHORIZED)
    (hrem : tickRemaining s now ≤ 0) :
    (check_loop_tick s card_number authorized_users now false lf).lock_calls =
        1 ∧
    (check_loop_tick s card_number authorized_users now false
        lf).state.no_card_start_time = some now := by
  have hst : (resolve_status card_number authorized_users).1 ≠
      Status.AUTHORIZED := by
    rw [check_loop_tick_status] at hstatus
    rcases hstatus with h | h <;> simp [h]
  unfold check_loop_tick
  rw [ui_timeout_run _ _ _ _ _ hst, edge_state_start_time]
  unfold tickRemaining at hrem
  rw [if_pos hrem]
  exact ⟨rfl, rfl⟩

/-- Witness for C1: no card from the fresh start state, eleven seconds
later. -/
theorem tick_expiry_fires_lock_once_witness :
    (check_loop_tick (initState 0) none [] 11 false false).lock_calls = 1 ∧
    (check_loop_tick (initState 0) none [] 11 false
        false).state.no_card_start_time = some 11 :=
  tick_expiry_fires_lock_once (initState 0) none [] 11 false
    (Or.inl (by decide)) (by decide)

/-- C2: on a tick whose resolved status is `AUTHORIZED`, or on which the
workstation is externally locked, the tick clears the no-card start time,
hides the window, and invokes no lock action, regardless of the state of the
previous countdown. -/
theorem tick_authorized_or_suspended_pauses (s : AppState)
    (card_number : Option String) (authorized_users : List (String × String))
    (now : Int) (is_locked lf : Bool)
    (h : (check_loop_tick s card_number authorized_users now is_locked
            lf).status = Status.AUTHORIZED ∨ is_locked = true) :
    (check_loop_tick s card_number authorized_users now is_locked
        lf).state.no_card_start_time = none ∧
    (check_loop_tick s card_number authorized_users now is_locked
        lf).visible = false ∧
    (check_loop_tick s card_number authorized_users now is_locked
        lf).lock_calls = 0 ∧
    (check_loop_tick s card_number authorized_users now is_locked
        lf).timer_shown = none := by
  rw [check_loop_tick_status] at h
  unfold check_loop_tick ui_timeout
  by_cases ha : (resolve_status card_number authorized_users).1 =
      Status.AUTHORIZED
  · rw [if_pos ha]
    exact ⟨rfl, rfl, rfl, rfl⟩
  · rcases h with h | h
    · exact absurd h ha
    · rw [if_neg ha, h, if_pos rfl]
      exact ⟨rfl, rfl, rfl, rfl⟩

/-- Witness for C2: an authorized card while a countdown was running. -/
theorem tick_authorized_or_suspended_pauses_witness :
    (check_loop_tick (initState 0) (some "AA") [("AA", "Alice")] 5 false
        false).state.no_card_start_time = none ∧
    (check_loop_tick (initState 0) (some "AA") [("AA", "Alice")] 5 false
        false).visible = false ∧
    (check_loop_tick (initState 0) (some "AA") [("AA", "Alice")] 5 false
        false).lock_calls = 0 ∧
    (check_loop_tick (initState 0) (some "AA") [("AA", "Alice")] 5 false
        false).timer_shown = none :=
  tick_authorized_or_suspended_pauses (initState 0) (some "AA")
    [("AA", "Alice")] 5 false false (Or.inl (by decide))

/-- A tick whose computed remaining time is still positive never invokes the
lock, whatever the status or suspend signal. -/
theorem tick_positive_remaining_no_lock (s : AppState)
    (card_number : Option String) (authorized_users : List (String × String))
    (now : Int) (lk lf : Bool) (h : 0 < tickRemaining s now) :
    (check_loop_tick s card_number authorized_users now lk lf).lock_calls =
      0 := by
  by_cases ha : (resolve_status card_number authorized_users).1 =
      Status.AUTHORIZED
  · unfold check_loop_tick ui_timeout
    rw [if_pos ha]
  · cases lk
    · unfold check_loop_tick
      rw [ui_timeout_run _ _ _ _ _ ha, edge_state_start_time]
      unfold tickRemaining at h
      rw [if_neg (by omega)]
    · unfold check_loop_tick ui_timeout
      rw [if_neg ha, if_pos rfl]

/-- C5: when the lock action raises on an expired tick, the tick still
resets the no-card start time to `now`, its state and events are exactly
those of a tick whose lock call succeeds (the error is recorded but
non-fatal), and any subsequent tick less than `TIMEOUT_SECONDS` after the
reset invokes no lock — the lock is retried only at the next expiry, not on
every tick. -/
theorem tick_lock_error_nonfatal (s : AppState) (card_number : Option String)
    (authorized_users : List (String × String)) (now : Int)
    (hstatus :
      (check_loop_tick s card_number authorized_users now false true).status =
          Status.NO_CARD ∨
        (check_loop_tick s card_number authorized_users now false
            true).status = Status.UNAUTHORIZED)
    (hrem : tickRemaining s now ≤ 0) :
    (check_loop_tick s card_number authorized_users now false
        true).lock_calls = 1 ∧
    (check_loop_tick s card_number authorized_users now false
        true).lock_error = true ∧
    (check_loop_tick s card_number authorized_users now false
        true).state.no_card_start_time = some now ∧
    (check_loop_tick s card_number authorized_users now false true).state =
      (check_loop_tick s card_number authorized_users now false false).state ∧
    (check_loop_tick s card_number authorized_users now false true).events =
      (check_loop_tick s card_number authorized_users now false false).events ∧
    (∀ (card2 : Option String) (users2 : List (String × String))
        (now2 : Int) (lk2 lf2 : Bool), now2 - now < TIMEOUT_SECONDS →
      (check_loop_tick
          (check_loop_tick s card_number authorized_users now false
            true).state card2 users2 now2 lk2 lf2).lock_calls = 0) := by
  have hst : (resolve_status card_number authorized_users).1 ≠
      Status.AUTHORIZED := by
    rw [check_loop_tick_status] at hstatus
    rcases hstatus with h | h <;> simp [h]
  simp only [check_loop_tick]
  rw [ui_timeout_run _ _ _ _ _ hst, ui_timeout_run _ _ _ _ _ hst,
    edge_state_start_time]
  unfold tickRemaining at hrem
  rw [if_pos hrem, if_pos hrem]
  refine ⟨rfl, rfl, rfl, rfl, rfl, ?_⟩
  intro card2 users2 now2 lk2 lf2 hlt
  apply tick_positive_remaining_no_lock
  simp only [tickRemaining, Option.getD_some]
  omega

/-- Witness for C5: the lock raises on the expired tick at `now = 11`; one
second later no lock fires. -/
theorem tick_lock_error_nonfatal_witness :
    (check_loop_tick
        (check_loop_tick (initState 0) none [] 11 false true).state
        none [] 12 false false).lock_calls = 0 :=
  (tick_lock_error_nonfatal (initState 0) none [] 11 (Or.inl (by decide))
    (by decide)).2.2.2.2.2 none [] 12 false false (by decide)

/-- C3: audit events per tick. (1) A tick whose poll result equals the
previous tick's card emits no events. (2) Removing a card whose presentation
had a resolved user emits exactly one `SessionEnded` with that identifier
and name. (3) On a swap to an authorized card, the events are exactly the
`SessionEnded` for the old card followed by the `Granted` for the new one.
(4) Any distinct authorized presentation emits its `Granted` exactly once. -/
theorem tick_event_emission (s : AppState) (card_number : Option String)
    (authorized_users : List (String × String)) (now : Int) (lk lf : Bool) :
    (card_number = s.last_card →
      (check_loop_tick s card_number authorized_users now lk lf).events =
        []) ∧
    (∀ c1 u1, s.last_card = some c1 → s.last_user_name = some u1 →
      c1 ≠ "" → u1 ≠ "" → card_number = none →
      (check_loop_tick s card_number authorized_users now lk lf).events =
        [Event.sessionEnded c1 u1]) ∧
    (∀ c1 u1 c2 n2, s.last_card = some c1 → s.last_user_name = some u1 →
      c1 ≠ "" → u1 ≠ "" → card_number = some c2 → c2 ≠ c1 → c2 ≠ "" →
      dictLookup authorized_users c2 = some n2 →
      (check_loop_tick s card_number authorized_users now lk lf).events =
        [Event.sessionEnded c1 u1, Event.granted c2 n2]) ∧
    (∀ c2 n2, card_number = some c2 → card_number ≠ s.last_card → c2 ≠ "" →
      dictLookup authorized_users c2 = some n2 →
      ((check_loop_tick s card_number authorized_users now lk
          lf).events.count (Event.granted c2 n2)) = 1) := by
  rw [check_loop_tick_events]
  refine ⟨?_, ?_, ?_, ?_⟩
  · intro h
    simp [edge_events, h]
  · intro c1 u1 h1 h2 hc1 hu1 hc
    subst hc
    simp [edge_events, h1, h2, truthy, hc1, hu1]
  · intro c1 u1 c2 n2 h1 h2 hc1 hu1 hc hne hc2 hlook
    subst hc
    simp [edge_events, h1, h2, truthy, hc1, hu1, hne, hc2, hlook]
  · intro c2 n2 hc hne hc2 hlook
    subst hc
    simp only [edge_events, if_neg hne]
    by_cases hP : truthy s.last_card ∧ truthy s.last_user_name <;>
      simp [hP, hc2, hlook, List.count_cons, List.count_nil]

/-- Witness for C3, instantiating the card-swap clause: swapping from
Alice's card to Bob's emits `SessionEnded` for Alice before `Granted` for
Bob. -/
theorem tick_event_emission_witness :
    (check_loop_tick
        (⟨some "AA", some "Alice", none, ""⟩ : AppState) (some "BB")
        [("BB", "Bob")] 3 false false).events =
      [Event.sessionEnded "AA" "Alice", Event.granted "BB" "Bob"] :=
  (tick_event_emission ⟨some "AA", some "Alice", none, ""⟩ (some "BB")
      [("BB", "Bob")] 3 false false).2.2.1 "AA" "Alice" "BB" "Bob" rfl rfl
    (by decide) (by decide) rfl (by decide) (by decide) (by decide)

/-- C10: while the same card stays present, `last_user_name` is never
re-resolved — the tick emits no events and keeps the name resolved at
presentation time, even against a registry in which the card is absent
or renamed; and the `SessionEnded` emitted when the card is then removed
carries that original name, not the current registry's. -/
theorem tick_stale_user_name (s : AppState) (c u : String)
    (users1 users2 : List (String × String)) (now1 now2 : Int)
    (lk1 lk2 lf1 lf2 : Bool) (h1 : s.last_card = some c)
    (h2 : s.last_user_name = some u) (hc : c ≠ "") (hu : u ≠ "") :
    (check_loop_tick s (some c) users1 now1 lk1 lf1).events = [] ∧
    (check_loop_tick s (some c) users1 now1 lk1
        lf1).state.last_user_name = some u ∧
    (check_loop_tick
        (check_loop_tick s (some c) users1 now1 lk1 lf1).state
        none users2 now2 lk2 lf2).events = [Event.sessionEnded c u] := by
  have hframe := ui_timeout_frame
    (edge_state s (some c) (resolve_status (some c) users1).2)
    (edge_events s (some c) users1) (resolve_status (some c) users1).1
    lk1 now1 lf1
  have hsame : (some c : Option String) = s.last_card := h1.symm
  have hes : edge_state s (some c) (resolve_status (some c) users1).2 = s := by
    unfold edge_state
    rw [if_pos hsame]
  have hcard1 :
      (check_loop_tick s (some c) users1 now1 lk1 lf1).state.last_card =
        some c := by
    unfold check_loop_tick
    rw [hframe.1, hes, h1]
  have huser1 :
      (check_loop_tick s (some c) users1 now1 lk1
          lf1).state.last_user_name = some u := by
    unfold check_loop_tick
    rw [hframe.2, hes, h2]
  refine ⟨?_, huser1, ?_⟩
  · rw [check_loop_tick_events]
    simp [edge_events, hsame.symm]
  · rw [check_loop_tick_events]
    simp [edge_events, hcard1, huser1, truthy, hc, hu]

/-- Witness for C10: Alice's card stays on the reader while the registry
drops her entry; the later removal still reports Alice. -/
theorem tick_stale_user_name_witness :
    (check_loop_tick
        (check_loop_tick (⟨some "AA", some "Alice", none, ""⟩ : AppState)
          (some "AA") [] 4 false false).state
        none [] 5 false false).events = [Event.sessionEnded "AA" "Alice"] :=
  (tick_stale_user_name ⟨some "AA", some "Alice", none, ""⟩ "AA" "Alice"
    [] [] 4 5 false false false false rfl rfl (by decide) (by decide)).2.2

end NFCAutolocker
